import Mathlib

/-!
Verification of the matching notebook (`distance_matching` and `return_rate`)
from the Social-Feedback weight-loss-community repository.

The Python source is shallowly embedded below.  Conventions:

* Python floats (upvote counts, similarity scores, thresholds, probabilities)
  are modelled as exact rationals `ℚ`; the claims under study are about the
  control flow of the greedy matching, not about rounding.
* Python exceptions that can escape the functions under study are modelled by
  an `Except PyError` result: `indexError` for `list[i]` out of range,
  `nameError` for a read of an unbound local variable, `zeroDivisionError`
  for float division by zero (Python raises `ZeroDivisionError` for `x / 0.0`).
* `random.sample(range(0, size), size)` (a fresh random permutation of the
  control indices) is modelled by an explicit parameter `lookUpControl`;
  theorems that depend on its contract assume it is a permutation of
  `List.range size`, which is what `sample` guarantees.
* The gensim `SparseMatrixSimilarity` index is an external library.  Its
  query result `index[control[i]]` is abstracted as a score function
  `simFn : Nat → Nat → ℚ` from (control-list index, treatment-list index) to
  the cosine similarity score; building the index over an empty treatment
  list raises (`len(treatment[0])` is an IndexError), which is modelled
  explicitly.
* The dictionaries `ranking` and `similarity` only feed the top-5 report
  (console output) and are not modelled; the observables kept are the emitted
  match records, the matched id lists and the unmatched counter.
-/

/-- Python exceptions observable at the boundary of the embedded functions. -/
inductive PyError where
  | indexError
  | nameError
  | zeroDivisionError
deriving DecidableEq

/-- Mutable state of one matching run, as in the body of `distance_matching`:
`matched` is the dict of already-claimed treatment post ids (insertion order),
`records` collects the emitted MatchRecords
(control-post, treatment-post, score) in emission order (the code keeps the
same triples spread over `similarity_return`, `similarity` and `ranking`),
and `matchedControl` / `matchedTreament` are the two returned lists
(the source spells `matchedTreament` without the h). -/
structure LoopState where
  matched : List String
  countUnmatched : Nat
  records : List (String × String × ℚ)
  matchedControl : List String
  matchedTreament : List String
deriving DecidableEq

deriving instance DecidableEq for Except

/-- Initial `LoopState`: empty `matched` dict, zero counters, empty lists. -/
def initLoopState : LoopState := ⟨[], 0, [], [], []⟩

/-- Stable descending insertion on the score component: `a` is placed before
the first element whose score is `≤` its own, i.e. after the block of strictly
greater scores.  Together with `pySortDesc` this realises exactly the
extensional behaviour of Python `sorted(key=itemgetter(1), reverse=True)`,
which is specified as a stable sort on the key. -/
def insertDesc (a : Nat × ℚ) : List (Nat × ℚ) → List (Nat × ℚ)
  | [] => [a]
  | b :: t => if b.2 ≤ a.2 then a :: b :: t else b :: insertDesc a t

/-- Stable sort, descending on the score component: the model of
`sorted(list(enumerate(sims)), key=itemgetter(1), reverse=True)`. -/
def pySortDesc : List (Nat × ℚ) → List (Nat × ℚ)
  | [] => []
  | a :: t => insertDesc a (pySortDesc t)

/-- The sorted candidate list `closer` for the control unit with control-list
index `c`: all `nT` treatment indices paired with their similarity score,
stably sorted by score descending. -/
def closerFor (simFn : Nat → Nat → ℚ) (nT : Nat) (c : Nat) : List (Nat × ℚ) :=
  pySortDesc ((List.range nT).map (fun i => (i, simFn c i)))

/-- Candidate selection for one control unit.  `replacement == False`: the
`while treatmentToPost[closer[y][0]] in matched: y += 1` scan, i.e. the first
candidate whose treatment post id is not yet claimed (`none` models the scan
running past the end of the list, where Python raises IndexError).
Otherwise `y` stays `0` and `closer[0]` is used. -/
def selectCandidate (treatmentPosts : List String) (matched : List String)
    (replacement : Bool) (closer : List (Nat × ℚ)) : Option (Nat × ℚ) :=
  if replacement = false then
    closer.find? (fun p => !(matched.contains (treatmentPosts.getD p.1 "")))
  else
    closer.head?

/-- One iteration of the matching loop, processing the control unit with
control-list index `c`.  When the distance mode is not `"cosine"` the local
variable `closer` was never assigned and Python raises NameError here.  On a
selected candidate with score `≥ threshold` a MatchRecord is emitted, the
treatment post is added to `matched` and to `matchedTreament`, the control
post to `matchedControl`; otherwise only `countUnmatched` is incremented. -/
def matchStep (d : String) (treatmentPosts controlPosts : List String)
    (threshold : ℚ) (replacement : Bool) (simFn : Nat → Nat → ℚ)
    (st : LoopState) (c : Nat) : Except PyError LoopState :=
  if d = "cosine" then
    match selectCandidate treatmentPosts st.matched replacement
        (closerFor simFn treatmentPosts.length c) with
    | none => .error .indexError
    | some p =>
      if threshold ≤ p.2 then
        .ok { matched := st.matched ++ [treatmentPosts.getD p.1 ""]
              countUnmatched := st.countUnmatched
              records := st.records ++
                [(controlPosts.getD c "", treatmentPosts.getD p.1 "", p.2)]
              matchedControl := st.matchedControl ++ [controlPosts.getD c ""]
              matchedTreament := st.matchedTreament ++ [treatmentPosts.getD p.1 ""] }
      else
        .ok { st with countUnmatched := st.countUnmatched + 1 }
  else
    .error .nameError

/-- The matching loop `for x in range(0, size)`, processing the control units
in the order given by `lookUpControl`; the first raised exception aborts the
run. -/
def runLoop (d : String) (treatmentPosts controlPosts : List String)
    (threshold : ℚ) (replacement : Bool) (simFn : Nat → Nat → ℚ) :
    LoopState → List Nat → Except PyError LoopState
  | st, [] => .ok st
  | st, c :: rest =>
    match matchStep d treatmentPosts controlPosts threshold replacement simFn st c with
    | .error e => .error e
    | .ok st' => runLoop d treatmentPosts controlPosts threshold replacement simFn st' rest

/-- One whole matching-mode run (the `else` branch of `distance_matching`):
if the distance mode is `"cosine"` and the treatment list is empty, building
the index raises IndexError (`len(treatment[0])`); otherwise the loop runs
over the shuffled control order. -/
def matchingRun (d : String) (treatmentPosts controlPosts : List String)
    (threshold : ℚ) (replacement : Bool) (simFn : Nat → Nat → ℚ)
    (lookUpControl : List Nat) : Except PyError LoopState :=
  if d = "cosine" ∧ treatmentPosts = [] then .error .indexError
  else runLoop d treatmentPosts controlPosts threshold replacement simFn
    initLoopState lookUpControl

/-- Document indices put in the control group by the partition pass of
`distance_matching`: those `x` in `range(0, size)` with
`upvotes[docToPost[x]] == 0`, in document order. -/
def controlIdx (docToPost : Nat → String) (upvotes : String → ℚ) (size : Nat) :
    List Nat :=
  (List.range size).filter (fun x => upvotes (docToPost x) == 0)

/-- Document indices put in the treatment group by the partition pass of
`distance_matching`: those `x` with `upvotes[docToPost[x]] != 0` (the `else`
branch), in document order. -/
def treatmentIdx (docToPost : Nat → String) (upvotes : String → ℚ) (size : Nat) :
    List Nat :=
  (List.range size).filter (fun x => !(upvotes (docToPost x) == 0))

/-- The full `distance_matching` function.  It always performs the partition
pass first; with `distance = None` it returns the two post-id lists
(`treatmentToPost.values(), controlToPost.values()`) unchanged, and otherwise
it runs the matching loop and returns `(matchedTreament, matchedControl)`. -/
def distance_matching (docToPost : Nat → String) (upvotes : String → ℚ)
    (size : Nat) (threshold : ℚ) (replacement : Bool) (distance : Option String)
    (lookUpControl : List Nat) (simFn : Nat → Nat → ℚ) :
    Except PyError (List String × List String) :=
  let treatmentPosts := (treatmentIdx docToPost upvotes size).map docToPost
  let controlPosts := (controlIdx docToPost upvotes size).map docToPost
  match distance with
  | none => .ok (treatmentPosts, controlPosts)
  | some d =>
    match matchingRun d treatmentPosts controlPosts threshold replacement
        simFn lookUpControl with
    | .ok st => .ok (st.matchedTreament, st.matchedControl)
    | .error e => .error e

/-- The five rates computed by `return_rate`, in source order. -/
structure ReturnRates where
  probTreatmentReturn : ℚ
  probControlReturn : ℚ
  bothReturn : ℚ
  neitherReturn : ℚ
  relativeIncrease : ℚ
deriving DecidableEq

/-- The `return_rate` function.  Python float division by zero raises
`ZeroDivisionError`, so the computation aborts at `probTreatmentReturn` when
the treatment list is empty, at `probControlReturn` when the control list is
empty, and at the relative increase `(pt - pc) / pc` when
`probControlReturn = 0`. -/
def return_rate (treatment control : List String) (returns : String → String) :
    Except PyError ReturnRates :=
  let treatmentReturn : Nat := (treatment.filter (fun u => returns u == "true")).length
  let controlReturn : Nat := (control.filter (fun u => returns u == "true")).length
  if treatment.length = 0 then .error .zeroDivisionError
  else
    let probTreatmentReturn : ℚ := (treatmentReturn : ℚ) / (treatment.length : ℚ)
    if control.length = 0 then .error .zeroDivisionError
    else
      let probControlReturn : ℚ := (controlReturn : ℚ) / (control.length : ℚ)
      let bothReturn : ℚ := ((treatmentReturn : ℚ) + (controlReturn : ℚ)) /
        ((treatment.length : ℚ) + (control.length : ℚ))
      if probControlReturn = 0 then .error .zeroDivisionError
      else
        .ok ⟨probTreatmentReturn, probControlReturn, bothReturn, 1 - bothReturn,
          (probTreatmentReturn - probControlReturn) / probControlReturn⟩

/-- The candidate ordering claimed for the sorted list `closer`: similarity
score strictly descending, with equal scores broken by ascending original
treatment index. -/
def closerRel (a b : Nat × ℚ) : Prop := b.2 < a.2 ∨ (a.2 = b.2 ∧ a.1 < b.1)

/-! Concrete population for the spec scenario: documents in order
C1, C2, T1, T2; C1 and C2 received zero upvotes, T1 and T2 one upvote.
Fractional constants are written with `mkRat` (`mkRat 19 20 = 0.95` and so
on, proved inside the scenario theorem). -/

/-- Document-to-post map of the 4-unit scenario population. -/
def dtp8 : Nat → String := fun x =>
  if x = 0 then "C1" else if x = 1 then "C2" else if x = 2 then "T1" else "T2"

/-- Upvote counts of the 4-unit scenario population. -/
def upv8 : String → ℚ := fun p => if p = "C1" ∨ p = "C2" then 0 else 1

/-- Similarity scores of the scenario: cos(C1,T1)=0.95, cos(C1,T2)=0.10,
cos(C2,T1)=0.90, cos(C2,T2)=0.05, with control indices 0=C1, 1=C2 and
treatment indices 0=T1, 1=T2. -/
def simFn8 : Nat → Nat → ℚ := fun c t =>
  if c = 0 then (if t = 0 then mkRat 19 20 else mkRat 1 10)
  else (if t = 0 then mkRat 9 10 else mkRat 1 20)

/-- Document-to-post map of a 3-unit population with two control units
(c1, c2) and one treatment unit (t1). -/
def dtpC2 : Nat → String := fun x => if x = 0 then "c1" else if x = 1 then "c2" else "t1"

/-- Upvote counts for the 3-unit population: only t1 got an upvote. -/
def upvC2 : String → ℚ := fun p => if p = "t1" then 1 else 0

/-- Outcome map of the aggregator scenario: only user A returned. -/
def rets9 : String → String := fun u => if u = "A" then "true" else "false"

/-! Helper lemmas about the stable descending sort. -/

theorem closerRel_score {a b : Nat × ℚ} (h : closerRel a b) : b.2 ≤ a.2 := by
  rcases h with h | ⟨h, -⟩
  · exact le_of_lt h
  · exact le_of_eq h.symm

theorem mem_insertDesc {c a : Nat × ℚ} {l : List (Nat × ℚ)} :
    c ∈ insertDesc a l ↔ c = a ∨ c ∈ l := by
  induction l with
  | nil => simp [insertDesc]
  | cons b t ih =>
    simp only [insertDesc]
    split
    · simp [List.mem_cons]
    · simp only [List.mem_cons, ih]
      tauto

theorem insertDesc_perm (a : Nat × ℚ) (l : List (Nat × ℚ)) :
    (insertDesc a l).Perm (a :: l) := by
  induction l with
  | nil => simp [insertDesc]
  | cons b t ih =>
    simp only [insertDesc]
    split
    · exact List.Perm.refl _
    · exact (ih.cons b).trans (List.Perm.swap a b t)

theorem pySortDesc_perm (l : List (Nat × ℚ)) : (pySortDesc l).Perm l := by
  induction l with
  | nil => simp [pySortDesc]
  | cons a t ih =>
    simp only [pySortDesc]
    exact (insertDesc_perm a (pySortDesc t)).trans (ih.cons a)

theorem insertDesc_pairwise {a : Nat × ℚ} {l : List (Nat × ℚ)}
    (hl : l.Pairwise closerRel) (ha : ∀ b ∈ l, a.2 = b.2 → a.1 < b.1) :
    (insertDesc a l).Pairwise closerRel := by
  induction l with
  | nil => simp [insertDesc, closerRel]
  | cons b t ih =>
    rcases List.pairwise_cons.mp hl with ⟨hb, ht⟩
    simp only [insertDesc]
    split
    · rename_i hba
      refine List.pairwise_cons.mpr ⟨?_, hl⟩
      intro c hc
      rcases List.mem_cons.mp hc with rfl | hct
      · rcases lt_or_eq_of_le hba with hlt | heq
        · exact Or.inl hlt
        · exact Or.inr ⟨heq.symm, ha c (List.mem_cons_self c t) heq.symm⟩
      · have hcb : c.2 ≤ b.2 := closerRel_score (hb c hct)
        rcases lt_or_eq_of_le (le_trans hcb hba) with hlt | heq
        · exact Or.inl hlt
        · exact Or.inr ⟨heq.symm, ha c (List.mem_cons_of_mem b hct) heq.symm⟩
    · rename_i hba
      have hab : a.2 < b.2 := lt_of_not_le hba
      refine List.pairwise_cons.mpr
        ⟨?_, ih ht (fun c hc hce => ha c (List.mem_cons_of_mem b hc) hce)⟩
      intro c hc
      rcases mem_insertDesc.mp hc with rfl | hct
      · exact Or.inl hab
      · exact hb c hct

theorem pySortDesc_pairwise {l : List (Nat × ℚ)}
    (h : l.Pairwise (fun a b => a.1 < b.1)) :
    (pySortDesc l).Pairwise closerRel := by
  induction l with
  | nil => simp [pySortDesc]
  | cons a t ih =>
    rcases List.pairwise_cons.mp h with ⟨haidx, ht⟩
    simp only [pySortDesc]
    refine insertDesc_pairwise (ih ht) ?_
    intro b hb _
    exact haidx b ((pySortDesc_perm t).mem_iff.mp hb)

/-! Helper lemmas about one loop iteration and the whole loop. -/

theorem matchStep_ok_cases {d : String} {tP cP : List String} {th : ℚ} {repl : Bool}
    {simFn : Nat → Nat → ℚ} {st : LoopState} {c : Nat} {st' : LoopState}
    (h : matchStep d tP cP th repl simFn st c = .ok st') :
    d = "cosine" ∧
    ∃ p, selectCandidate tP st.matched repl (closerFor simFn tP.length c) = some p ∧
      ((th ≤ p.2 ∧ st' = { matched := st.matched ++ [tP.getD p.1 ""],
                           countUnmatched := st.countUnmatched,
                           records := st.records ++ [(cP.getD c "", tP.getD p.1 "", p.2)],
                           matchedControl := st.matchedControl ++ [cP.getD c ""],
                           matchedTreament := st.matchedTreament ++ [tP.getD p.1 ""] }) ∨
        (¬ th ≤ p.2 ∧ st' = { st with countUnmatched := st.countUnmatched + 1 })) := by
  unfold matchStep at h
  split at h
  · rename_i hd
    refine ⟨hd, ?_⟩
    split at h
    · cases h
    · rename_i p hsel
      refine ⟨p, hsel, ?_⟩
      split at h
      · rename_i hth
        exact Or.inl ⟨hth, (Except.ok.inj h).symm⟩
      · rename_i hth
        exact Or.inr ⟨hth, (Except.ok.inj h).symm⟩
  · cases h

theorem runLoop_inv {d : String} {tP cP : List String} {th : ℚ} {repl : Bool}
    {simFn : Nat → Nat → ℚ} (P : LoopState → Prop)
    (hstep : ∀ st c st', matchStep d tP cP th repl simFn st c = .ok st' → P st → P st')
    (l : List Nat) :
    ∀ st st', runLoop d tP cP th repl simFn st l = .ok st' → P st → P st' := by
  induction l with
  | nil =>
    intro st st' h hp
    simp only [runLoop] at h
    exact (Except.ok.inj h) ▸ hp
  | cons c rest ih =>
    intro st st' h hp
    simp only [runLoop] at h
    cases hm : matchStep d tP cP th repl simFn st c with
    | error e => rw [hm] at h; cases h
    | ok st1 => rw [hm] at h; exact ih st1 st' h (hstep st c st1 hm hp)

theorem matchStep_count {d : String} {tP cP : List String} {th : ℚ} {repl : Bool}
    {simFn : Nat → Nat → ℚ} {st : LoopState} {c : Nat} {st' : LoopState}
    (h : matchStep d tP cP th repl simFn st c = .ok st') :
    st'.records.length + st'.countUnmatched = st.records.length + st.countUnmatched + 1 := by
  rcases matchStep_ok_cases h with ⟨-, p, -, ⟨-, rfl⟩ | ⟨-, rfl⟩⟩ <;> simp <;> omega

theorem runLoop_count {d : String} {tP cP : List String} {th : ℚ} {repl : Bool}
    {simFn : Nat → Nat → ℚ} (l : List Nat) :
    ∀ st st', runLoop d tP cP th repl simFn st l = .ok st' →
      st'.records.length + st'.countUnmatched =
        st.records.length + st.countUnmatched + l.length := by
  induction l with
  | nil =>
    intro st st' h
    simp only [runLoop] at h
    rw [← Except.ok.inj h]
    simp
  | cons c rest ih =>
    intro st st' h
    simp only [runLoop] at h
    cases hm : matchStep d tP cP th repl simFn st c with
    | error e => rw [hm] at h; cases h
    | ok st1 =>
      rw [hm] at h
      have h1 := ih st1 st' h
      have h2 := matchStep_count hm
      simp only [List.length_cons]
      omega

theorem nodup_append_one {α : Type} {l : List α} {a : α} (h : l.Nodup) (ha : a ∉ l) :
    (l ++ [a]).Nodup := by
  simp [List.nodup_append, h, ha]

/-! The claims. -/

/-- C1: in every matching run with `replacement = false` that completes
(`matchingRun` returns `.ok`), every treatment-id appears in at most one
emitted MatchRecord: the list of treatment post ids of the emitted records
has no duplicates, because a claimed treatment id is skipped by the candidate
scan of every later control unit. -/
theorem C1_without_replacement_no_reuse {d : String} {tP cP : List String} {th : ℚ}
    {simFn : Nat → Nat → ℚ} {lu : List Nat} {st : LoopState}
    (hok : matchingRun d tP cP th false simFn lu = .ok st) :
    (st.records.map (fun r => r.2.1)).Nodup := by
  unfold matchingRun at hok
  split at hok
  · cases hok
  · refine (runLoop_inv (fun s => (s.records.map (fun r => r.2.1)).Nodup ∧
      ∀ t ∈ s.records.map (fun r => r.2.1), t ∈ s.matched) ?_ lu initLoopState st hok
      ⟨List.nodup_nil, by simp [initLoopState]⟩).1
    intro s c s' hs hp
    obtain ⟨hnd, hsub⟩ := hp
    rcases matchStep_ok_cases hs with ⟨hd, p, hsel, hcase⟩
    have hfind : (closerFor simFn tP.length c).find?
        (fun q => !(s.matched.contains (tP.getD q.1 ""))) = some p := by
      simpa [selectCandidate] using hsel
    have hnotmem : tP.getD p.1 "" ∉ s.matched := by
      simpa using List.find?_some hfind
    rcases hcase with ⟨hth, rfl⟩ | ⟨hth, rfl⟩
    · constructor
      · simp only [List.map_append, List.map_cons, List.map_nil]
        exact nodup_append_one hnd (fun hx => hnotmem (hsub _ hx))
      · intro t ht
        simp only [List.map_append, List.map_cons, List.map_nil, List.mem_append,
          List.mem_singleton] at ht
        rcases ht with ht | rfl
        · exact List.mem_append_left _ (hsub t ht)
        · exact List.mem_append_right _ (List.mem_singleton.mpr rfl)
    · exact ⟨hnd, hsub⟩

/-- Witness for C1, instantiated at the concrete 4-unit scenario run. -/
theorem C1_without_replacement_no_reuse_witness :
    (([("C1", "T1", mkRat 19 20)] : List (String × String × ℚ)).map (fun r => r.2.1)).Nodup :=
  @C1_without_replacement_no_reuse "cosine" ["T1", "T2"] ["C1", "C2"] (mkRat 9 10)
    simFn8 [0, 1] ⟨["T1"], 1, [("C1", "T1", mkRat 19 20)], ["C1"], ["T1"]⟩ (by decide)

/-- C2: on a population with one treatment unit and two control units whose
similarities all clear the threshold, the first control unit claims the only
treatment unit; the second control unit's without-replacement scan then finds
every candidate claimed and the code raises IndexError (`closer[y]` with `y`
past the end) out of the engine, instead of counting the unit as unmatched as
the specification requires. -/
theorem C2_exhausted_candidates_crash :
    distance_matching dtpC2 upvC2 3 0 false (some "cosine") [0, 1] (fun _ _ => 1) =
      .error .indexError := by
  decide

/-- C3: every MatchRecord emitted by a completed matching run has similarity
score `≥` the configured threshold; and a control unit whose selected
candidate scores below the threshold produces no record and only increments
the unmatched-control counter. -/
theorem C3_threshold_invariant {d : String} {tP cP : List String} {th : ℚ} {repl : Bool}
    {simFn : Nat → Nat → ℚ} {lu : List Nat} {st : LoopState}
    (hok : matchingRun d tP cP th repl simFn lu = .ok st) :
    (∀ r ∈ st.records, th ≤ r.2.2) ∧
    (∀ (s : LoopState) (c : Nat) (p : Nat × ℚ),
      selectCandidate tP s.matched repl (closerFor simFn tP.length c) = some p →
      p.2 < th →
      matchStep "cosine" tP cP th repl simFn s c =
        .ok { s with countUnmatched := s.countUnmatched + 1 }) := by
  constructor
  · unfold matchingRun at hok
    split at hok
    · cases hok
    · refine runLoop_inv (fun s => ∀ r ∈ s.records, th ≤ r.2.2) ?_ lu
        initLoopState st hok (by simp [initLoopState])
      intro s c s' hs hp
      rcases matchStep_ok_cases hs with ⟨hd, p, hsel, hcase⟩
      rcases hcase with ⟨hth, rfl⟩ | ⟨hth, rfl⟩
      · intro r hr
        simp only [List.mem_append, List.mem_singleton] at hr
        rcases hr with hr | rfl
        · exact hp r hr
        · exact hth
      · exact hp
  · intro s c p hsel hlt
    simp only [matchStep, if_pos rfl, hsel]
    rw [if_neg (not_le.mpr hlt)]
    simp

/-- Witness for C3: the one record of the concrete scenario run scores
`mkRat 19 20 = 0.95`, at least the threshold `mkRat 9 10 = 0.9`. -/
theorem C3_threshold_invariant_witness : (mkRat 9 10 : ℚ) ≤ mkRat 19 20 :=
  (@C3_threshold_invariant "cosine" ["T1", "T2"] ["C1", "C2"] (mkRat 9 10) false
      simFn8 [0, 1] ⟨["T1"], 1, [("C1", "T1", mkRat 19 20)], ["C1"], ["T1"]⟩
      (by decide)).1 ("C1", "T1", mkRat 19 20) (by decide)

/-- C4 counterexample: invoked with distance mode `"mahalanobis"` (neither
None nor `"cosine"`) on an all-treatment population, `distance_matching`
completes and returns empty matched lists — it does not fail at all, let
alone with an UnsupportedDistance error before partitioning. -/
theorem C4_unsupported_distance_counterexample :
    distance_matching (fun _ => "p") (fun _ => 1) 1 1 false (some "mahalanobis") []
      (fun _ _ => 0) = .ok ([], []) := rfl

/-- C4 amended: the code performs no distance-mode validation.  The partition
always runs first; with a distance mode other than None/`"cosine"`, if the
control group is empty the run completes returning empty matched lists, and
otherwise it fails only at the first control unit of the matching loop, with
a NameError for the never-assigned candidate list — not with an
UnsupportedDistance error surfaced before partitioning. -/
theorem C4_unsupported_distance_amended {docToPost : Nat → String}
    {upvotes : String → ℚ} {size : Nat} {th : ℚ} {repl : Bool} (d : String)
    {lu : List Nat} {simFn : Nat → Nat → ℚ}
    (hd : d ≠ "cosine")
    (hperm : lu.Perm (List.range (controlIdx docToPost upvotes size).length)) :
    (controlIdx docToPost upvotes size = [] →
      distance_matching docToPost upvotes size th repl (some d) lu simFn = .ok ([], [])) ∧
    (controlIdx docToPost upvotes size ≠ [] →
      distance_matching docToPost upvotes size th repl (some d) lu simFn =
        .error .nameError) := by
  constructor
  · intro hc
    have hlu : lu = [] := by
      rw [hc] at hperm
      simpa using hperm.eq_nil
    subst hlu
    simp [distance_matching, matchingRun, runLoop, hd, initLoopState]
  · intro hc
    obtain ⟨c, rest, hlu⟩ : ∃ c rest, lu = c :: rest := by
      cases hlu' : lu with
      | nil =>
        rw [hlu'] at hperm
        have hnil : (List.range (controlIdx docToPost upvotes size).length) = [] :=
          hperm.symm.eq_nil
        simp at hnil
        exact absurd hnil hc
      | cons c rest => exact ⟨c, rest, rfl⟩
    subst hlu
    simp [distance_matching, matchingRun, runLoop, matchStep, hd]

/-- Witness for the amended C4: on the 4-unit population (two control units)
with distance mode `"mahalanobis"` the run fails with NameError. -/
theorem C4_unsupported_distance_amended_witness :
    distance_matching dtp8 upv8 4 1 false (some "mahalanobis") [0, 1] (fun _ _ => 0) =
      .error .nameError :=
  (@C4_unsupported_distance_amended dtp8 upv8 4 1 false "mahalanobis" [0, 1]
      (fun _ _ => 0) (by decide) (by decide)).2 (by decide)

/-- C5: in baseline mode (`distance = None`), `distance_matching` returns
exactly the treatment and control post-id lists produced by the group
partition, unchanged and with no drops, for every similarity function — so
the result cannot depend on any similarity computation. -/
theorem C5_baseline_passthrough (docToPost : Nat → String) (upvotes : String → ℚ)
    (size : Nat) (threshold : ℚ) (replacement : Bool) (lookUpControl : List Nat)
    (simFn : Nat → Nat → ℚ) :
    distance_matching docToPost upvotes size threshold replacement none lookUpControl simFn =
      .ok ((treatmentIdx docToPost upvotes size).map docToPost,
        (controlIdx docToPost upvotes size).map docToPost) := rfl

/-- C6 counterexample: a one-unit population whose feedback scalar is `-1` is
placed in the treatment group although its feedback is not greater than `0`,
refuting "Treatment if and only if feedback > 0" (the code tests only
`== 0`). -/
theorem C6_partition_counterexample :
    0 ∈ treatmentIdx (fun _ => "p") (fun _ => (-1 : ℚ)) 1 ∧ ¬ (0 < (-1 : ℚ)) := by
  decide

/-- C6 amended: the partition places each unit in exactly one group —
Control iff its feedback scalar equals 0, Treatment iff its feedback scalar
is nonzero (so negative feedback also lands in Treatment) — and the two
groups are disjoint and together cover the whole population. -/
theorem C6_partition_amended (docToPost : Nat → String) (upvotes : String → ℚ)
    (size : Nat) :
    (∀ x, x ∈ controlIdx docToPost upvotes size ↔ x < size ∧ upvotes (docToPost x) = 0) ∧
    (∀ x, x ∈ treatmentIdx docToPost upvotes size ↔ x < size ∧ ¬ upvotes (docToPost x) = 0) ∧
    (∀ x, ¬ (x ∈ controlIdx docToPost upvotes size ∧ x ∈ treatmentIdx docToPost upvotes size)) ∧
    (∀ x, x < size → x ∈ controlIdx docToPost upvotes size ∨ x ∈ treatmentIdx docToPost upvotes size) := by
  refine ⟨fun x => ?_, fun x => ?_, fun x => ?_, fun x => ?_⟩ <;>
    simp [controlIdx, treatmentIdx, List.mem_filter, List.mem_range] <;> tauto

/-- Witness for the amended C6: unit 0 of the scenario population falls into
one of the two groups. -/
theorem C6_partition_amended_witness :
    0 ∈ controlIdx dtp8 upv8 4 ∨ 0 ∈ treatmentIdx dtp8 upv8 4 :=
  (C6_partition_amended dtp8 upv8 4).2.2.2 0 (by decide)

/-- C7: for every control unit, the candidate list used by the engine is
ordered by similarity score descending with equal scores in ascending
original treatment-index order (the stable, deterministic tie-break), and it
is a permutation of the full enumerated score list over all treatment
units. -/
theorem C7_candidates_sorted (simFn : Nat → Nat → ℚ) (nT c : Nat) :
    (closerFor simFn nT c).Pairwise closerRel ∧
      (closerFor simFn nT c).Perm ((List.range nT).map (fun i => (i, simFn c i))) := by
  constructor
  · refine pySortDesc_pairwise ?_
    refine List.pairwise_map.mpr ?_
    exact (List.pairwise_lt_range nT).imp (fun h => h)
  · exact pySortDesc_perm _

/-- C8: the concrete 4-unit scenario — C1, C2 control, T1, T2 treatment;
cos(C1,T1)=0.95, cos(C1,T2)=0.10, cos(C2,T1)=0.90, cos(C2,T2)=0.05;
threshold 0.9, replacement = false, C1 processed first.  The run emits
exactly one MatchRecord (C1, T1, 0.95) and the unmatched count is 1:
C2's best candidate T1 is already claimed and its next candidate T2 scores
0.05 below the threshold.  The trailing equations identify the `mkRat`
constants with the decimal literals of the claim. -/
theorem C8_concrete_scenario :
    matchingRun "cosine" ["T1", "T2"] ["C1", "C2"] (mkRat 9 10) false simFn8 [0, 1] =
      .ok ⟨["T1"], 1, [("C1", "T1", mkRat 19 20)], ["C1"], ["T1"]⟩ ∧
    distance_matching dtp8 upv8 4 (mkRat 9 10) false (some "cosine") [0, 1] simFn8 =
      .ok (["T1"], ["C1"]) ∧
    (mkRat 9 10 : ℚ) = 0.9 ∧ (mkRat 19 20 : ℚ) = 0.95 ∧
    (mkRat 1 10 : ℚ) = 0.10 ∧ (mkRat 1 20 : ℚ) = 0.05 := by
  refine ⟨by decide, by decide, ?_, ?_, ?_, ?_⟩ <;> norm_num [Rat.mkRat_eq_div]

/-- C9: `return_rate` fails with ZeroDivisionError whenever either input
group is empty, and whenever the computed control return probability is 0 the
relative increase ends in ZeroDivisionError as well — never a silent
infinity or zero. -/
theorem C9_division_by_zero (treatment control : List String)
    (returns : String → String) :
    ((treatment = [] ∨ control = []) →
      return_rate treatment control returns = .error .zeroDivisionError) ∧
    ((((control.filter (fun u => returns u == "true")).length : ℚ) / (control.length : ℚ) = 0) →
      return_rate treatment control returns = .error .zeroDivisionError) := by
  constructor
  · rintro (rfl | rfl)
    · simp [return_rate]
    · unfold return_rate
      split
      · rfl
      · simp
  · intro h
    unfold return_rate
    split
    · rfl
    · split
      · rfl
      · rw [if_pos h]

/-- Witness for C9, at the spec scenario Treatment = {A, B},
Control = {C, D}, only A returned: the control return probability is 0 and
the aggregator fails with ZeroDivisionError. -/
theorem C9_division_by_zero_witness :
    return_rate ["A", "B"] ["C", "D"] rets9 = .error .zeroDivisionError :=
  (C9_division_by_zero ["A", "B"] ["C", "D"] rets9).2 (by
    have hf : (["C", "D"].filter (fun u => rets9 u == "true")) = [] := rfl
    rw [hf]
    simp)

/-- C10: in every completed matching run whose processing order is a
permutation of the control indices (the contract of
`random.sample(range(0, size), size)`), each control unit contributes exactly
one emitted MatchRecord or one unmatched increment, so the number of emitted
MatchRecords plus the final unmatched count equals the size of the control
group. -/
theorem C10_records_plus_unmatched {d : String} {tP cP : List String} {th : ℚ}
    {repl : Bool} {simFn : Nat → Nat → ℚ} {lu : List Nat} {st : LoopState}
    (hperm : lu.Perm (List.range cP.length))
    (hok : matchingRun d tP cP th repl simFn lu = .ok st) :
    st.records.length + st.countUnmatched = cP.length := by
  unfold matchingRun at hok
  split at hok
  · cases hok
  · have hcount := runLoop_count lu initLoopState st hok
    have hlen : lu.length = cP.length := by simpa using hperm.length_eq
    simp only [initLoopState, List.length_nil] at hcount
    omega

/-- Witness for C10 at the concrete scenario run: one record plus one
unmatched control unit equals the two control units. -/
theorem C10_records_plus_unmatched_witness :
    (1 : Nat) + 1 = (["C1", "C2"] : List String).length :=
  @C10_records_plus_unmatched "cosine" ["T1", "T2"] ["C1", "C2"] (mkRat 9 10) false
    simFn8 [0, 1] ⟨["T1"], 1, [("C1", "T1", mkRat 19 20)], ["C1"], ["T1"]⟩
    (by decide) (by decide)
